import Mathlib

/-!
Verification of the eBay scraper orchestration engine.

The definitions below are a shallow embedding of the scraping server
(`ScraperTask`, the task queue, and the WebSocket handlers).  Each definition
carries a pointer to the JavaScript source it embeds.  Theorems about the
claims of the specification follow the definitions.
-/

namespace EbayScraper

/-- Event kinds sent through `sendUpdate` (the `updateType` field).  Payloads
are reduced to the parts the theorems talk about: `status` carries the
`status` string, `progress` the page number, `rateLimited` the wait time in
seconds. -/
inductive Ev where
  | status (msg : String)
  | progress (page : Nat)
  | rateLimited (waitTime : Nat)
  | waiting (remaining : Nat)
  | filesSaved
  | complete
  | error
  deriving DecidableEq, Repr

/-- Terminal event sequence of one `startScraping` run, from the tail of
`startScraping` (lines 726-758 of the server source).
`scrapeOk` - the page loop and any enrichment finished without throwing;
`firstSaveOk` - the `saveResults` call on the success path succeeded;
`catchSaveOk` - the best-effort `saveResults` inside the catch block succeeded;
`productsCollected` - `this.products.length` at the time of the failure.
On the success path `saveResults` emits `files_saved` and the run ends with
`complete`.  In the catch block, when partial products exist the code retries
`saveResults` and on success emits `files_saved` and a `complete` update
carrying the error message, and in every fatal case it finally emits exactly
one `error` update. -/
def finalizationEvents (scrapeOk firstSaveOk catchSaveOk : Bool)
    (productsCollected : Nat) : List Ev :=
  if scrapeOk && firstSaveOk then
    [Ev.filesSaved, Ev.complete]
  else
    (if 0 < productsCollected then
       (if catchSaveOk then [Ev.filesSaved, Ev.complete] else [])
     else []) ++ [Ev.error]

/-- Ceiling division, the `Math.ceil(totalResults / itemsPerPage)` of the
source for a positive divisor. -/
def ceilDiv (a b : Nat) : Nat := (a + b - 1) / b

/-- `const totalResults = pageInfo.totalResults || (pageInfo.productCount * 100)`
(line 576): when no result count is parseable the code estimates the total
from the number of product elements on the first page. -/
def effectiveTotalResults (parsedTotal productCount : Nat) : Nat :=
  if parsedTotal = 0 then productCount * 100 else parsedTotal

/-- Total-page computation of `startScraping` (lines 581-594).
`maxPages = 0` is the "scrape all pages" request; the `options.maxPages || 100`
fallback applies when `totalResults` is zero. -/
def computeTotalPages (totalResults itemsPerPage maxPages : Nat) : Nat :=
  if totalResults = 0 then
    (if maxPages = 0 then 100 else maxPages)
  else if maxPages = 0 then
    ceilDiv totalResults itemsPerPage
  else
    min (ceilDiv totalResults itemsPerPage) maxPages

/-- The slice of `ScraperTask` state read and written by `handleRateLimit`
(fields set in the constructor, lines 134-143). -/
structure RateState where
  retryCount : Nat
  isRunning : Bool
  blockDetected : Bool
  deriving DecidableEq, Repr

/-- Constructor state of a fresh task. -/
def initRateState : RateState :=
  { retryCount := 0, isRunning := true, blockDetected := false }

/-- `this.maxRetries = 3` - a constructor field of `ScraperTask`; no other
line of the server reads it. -/
def maxRetries : Nat := 3

/-- `handleRateLimit` (lines 825-848): computes
`waitTime = 60 + this.retryCount * 30`, emits a `rate_limited` update, sleeps,
then increments `retryCount` and clears `blockDetected`.  Returns the updated
state together with the computed wait in seconds.  It has no cap, never
resets `retryCount`, and never stops the task; the page loop of
`startScraping` never calls it. -/
def handleRateLimit (s : RateState) : RateState × Nat :=
  let waitTime := 60 + s.retryCount * 30
  ({ s with retryCount := s.retryCount + 1, blockDetected := false }, waitTime)

/-- State after `n` consecutive invocations of `handleRateLimit` with no
intervening reset (none exists in the source). -/
def consecutiveDetections : Nat → RateState → RateState
  | 0, s => s
  | n + 1, s => consecutiveDetections n (handleRateLimit s).1

/-- Wait computed by the `n`-th consecutive detection (0-based). -/
def nthDetectionWait (n : Nat) : Nat :=
  (handleRateLimit (consecutiveDetections n initRateState)).2

/-- Failure cases of the startup phase of `startScraping`. -/
inductive StartupError where
  | launchFailed
  | navigationFailed
  deriving DecidableEq, Repr

/-- `await this.init()` (line 497): `puppeteer.launch` is attempted exactly
once; the oracle `launchOk n` says whether the `n`-th launch attempt would
succeed, and the code only ever consults attempt `0`. -/
def browserLaunchAttempt (launchOk : Nat → Bool) : Bool := launchOk 0

/-- The first-page navigation retry loop (lines 512-524): `retries = 3`;
each failed `goto` decrements `retries` and rethrows once it reaches zero.
`navOk n` tells whether the `n`-th navigation attempt succeeds; the result is
the number of attempts used on success. -/
def firstPageLoad (navOk : Nat → Bool) : Nat → Nat → Option Nat
  | 0, _ => none
  | retries + 1, attempt =>
    if navOk attempt then some (attempt + 1)
    else if retries = 0 then none
    else firstPageLoad navOk retries (attempt + 1)

/-- Startup phase of `startScraping`: one browser launch, then the first-page
navigation with up to 3 attempts.  A launch failure propagates straight to the
catch block (task fails); only navigation is retried. -/
def startupPhase (launchOk navOk : Nat → Bool) : Except StartupError Nat :=
  if browserLaunchAttempt launchOk then
    match firstPageLoad navOk 3 0 with
    | some attempts => Except.ok attempts
    | none => Except.error StartupError.navigationFailed
  else
    Except.error StartupError.launchFailed

/-- `const MAX_CONCURRENT_BROWSERS = 1` (line 70): "Only allow 1 browser at a
time".  Kept as an integer because `activeBrowserCount` can go below zero in
the source. -/
def MAX_CONCURRENT_BROWSERS : Int := 1

/-- Scheduler state: the FIFO `taskQueue`, the started tasks whose
`startScraping` promise has not settled split by their `isRunning` flag
(`runningTasks` still true, `cancelledPending` set false by `stop()` but with
the `finally` decrement still owed), and the `activeBrowserCount` counter. -/
structure SchedState where
  taskQueue : List Nat
  runningTasks : List Nat
  cancelledPending : List Nat
  activeBrowserCount : Int
  deriving DecidableEq, Repr

/-- Server start: empty registry and queue, counter zero. -/
def initSched : SchedState := ⟨[], [], [], 0⟩

/-- The `while` loop of `processTaskQueue` (lines 109-123): while the counter
is below the cap and the queue is non-empty, shift the next task, increment
the counter and start its session. -/
def admitLoop : List Nat → Int → List Nat → Int × List Nat × List Nat
  | [], count, running => (count, [], running)
  | t :: rest, count, running =>
    if count < MAX_CONCURRENT_BROWSERS then
      admitLoop rest (count + 1) (running ++ [t])
    else
      (count, t :: rest, running)

/-- `processTaskQueue` applied to the scheduler state. -/
def processTaskQueue (s : SchedState) : SchedState :=
  let r := admitLoop s.taskQueue s.activeBrowserCount s.runningTasks
  { s with activeBrowserCount := r.1, taskQueue := r.2.1, runningTasks := r.2.2 }

/-- Scheduler-visible actions: `start_multi` with one URL (push then
`processTaskQueue`), the `stop_task` and `stop_all` message handlers, and the
settling of a started task's `startScraping` promise (its `finally` block:
decrement the counter, then `processTaskQueue`). -/
inductive SchedAction where
  | submit (t : Nat)
  | stopTask (t : Nat)
  | stopAll
  | taskFinished (t : Nat)
  deriving DecidableEq, Repr

/-- One scheduler transition, following the message handlers (lines 887-962)
and the queue runner (lines 106-124).  `stop_all` clears the queue, marks
every running task stopped and resets `activeBrowserCount` to 0 even though
each started task's `finally` decrement is still owed. -/
def schedStep (s : SchedState) (a : SchedAction) : SchedState :=
  match a with
  | SchedAction.submit t =>
      processTaskQueue { s with taskQueue := s.taskQueue ++ [t] }
  | SchedAction.stopTask t =>
      let s1 :=
        if s.runningTasks.contains t then
          { s with runningTasks := s.runningTasks.erase t,
                   cancelledPending := s.cancelledPending ++ [t] }
        else s
      { s1 with taskQueue := s1.taskQueue.erase t }
  | SchedAction.stopAll =>
      { s with runningTasks := [],
               cancelledPending := s.cancelledPending ++ s.runningTasks,
               taskQueue := [],
               activeBrowserCount := 0 }
  | SchedAction.taskFinished t =>
      if s.runningTasks.contains t then
        processTaskQueue { s with runningTasks := s.runningTasks.erase t,
                                  activeBrowserCount := s.activeBrowserCount - 1 }
      else if s.cancelledPending.contains t then
        processTaskQueue { s with cancelledPending := s.cancelledPending.erase t,
                                  activeBrowserCount := s.activeBrowserCount - 1 }
      else s

/-- Run a sequence of scheduler actions from server start. -/
def runSched (as : List SchedAction) : SchedState :=
  as.foldl schedStep initSched

/-- A product record as built by `extractProducts` (lines 407-477): every
listed field is a string (possibly empty), `Page` is the page number, and
`Scraped_At` is absent until the loop stamps the record (line 675). -/
structure Product where
  Title : String
  Price : String
  Ebay_Item_Number : String
  EAN : String
  Description : String
  Image_URL_1 : String
  Image_URL_2 : String
  Image_URL_3 : String
  Image_URL_4 : String
  Condition : String
  Shipping : String
  URL : String
  Page : Nat
  Scraped_At : Option String
  deriving DecidableEq, Repr

/-- Concrete product with a given item number and title, all other fields as
`extractProducts` initialises them. -/
def mkProduct (n t : String) : Product :=
  { Title := t, Price := "", Ebay_Item_Number := n, EAN := "", Description := "",
    Image_URL_1 := "", Image_URL_2 := "", Image_URL_3 := "", Image_URL_4 := "",
    Condition := "", Shipping := "", URL := "", Page := 0, Scraped_At := none }

/-- The item identifiers of a record list. -/
def itemNumbers (l : List Product) : List String :=
  l.map Product.Ebay_Item_Number

/-- `this.seenItems.add(key)` - JS `Set` insertion on the list model. -/
def addSeen (seen : List String) (key : String) : List String :=
  if key ∈ seen then seen else seen ++ [key]

/-- `products.forEach(p => this.seenItems.add(p.Ebay_Item_Number))`
(line 671). -/
def recordSeen (seen : List String) (l : List Product) : List String :=
  l.foldl (fun t q => addSeen t q.Ebay_Item_Number) seen

/-- Outcome of the navigation phase of one page iteration (lines 612-663),
relevant for pages after the first:
`clear` - `goto` succeeded with no detection marker;
`navFailRetryOk` - first `goto` threw, the 10-second-delay retry succeeded;
`navFailTwice` - both `goto` attempts threw, the page is skipped (`continue`);
`blockedRetryClear` - detection marker seen, 120-second wait, retry no longer
blocked; `blockedPersist` - still blocked after the wait and single retry. -/
inductive NavResult where
  | clear
  | navFailRetryOk
  | navFailTwice
  | blockedRetryClear
  | blockedPersist
  deriving DecidableEq, Repr

/-- What the environment presents on one page: the navigation outcome and the
candidate records `extractProducts` returns from the loaded content. -/
structure PageOutcome where
  nav : NavResult
  extracted : List Product
  deriving DecidableEq, Repr

/-- The task-loop state mutated by the page loop of `startScraping`:
`products`, `seenItems`, `emptyPageCount`, `currentPage`, plus the ordered
trace of emitted updates and of the detection waits taken (in seconds). -/
structure LoopState where
  products : List Product
  seen : List String
  emptyPageCount : Nat
  currentPage : Nat
  events : List Ev
  detectionWaits : List Nat
  deriving DecidableEq, Repr

/-- Loop state at the start of `startScraping`. -/
def initLoopState : LoopState :=
  { products := [], seen := [], emptyPageCount := 0, currentPage := 0,
    events := [], detectionWaits := [] }

/-- The in-loop bot-detection wait (line 632):
`await new Promise(resolve => setTimeout(resolve, 120000))` - a fixed
120-second sleep.  The argument records the cancellation flag available at
that point; the sleep consults no task state, so the result is 120 whatever
the flag does. -/
def botDetectionWaitSeconds (_isRunning : Nat → Bool) : Nat := 120

/-- Lines 665-689: extraction, duplicate filtering, timestamping, appending
and the `progress` update of one page iteration.  The duplicate filter tests
membership in `seenItems` as it was before this page, and afterwards every
extracted identifier of the page (filtered or not) is added to the set. -/
def extractStep (dedupe : Bool) (stamp : String) (page : Nat)
    (extracted : List Product) (s : LoopState) : LoopState :=
  let newProducts :=
    if dedupe then
      extracted.filter (fun q => decide (q.Ebay_Item_Number ∉ s.seen))
    else extracted
  let seen2 := if dedupe then recordSeen s.seen extracted else s.seen
  let stamped := newProducts.map (fun q => { q with Scraped_At := some stamp })
  { s with products := s.products ++ stamped,
           seen := seen2,
           events := s.events ++ [Ev.progress page] }

/-- Lines 665-711: extraction followed by the consecutive-empty-page
tracking.  Returns the updated state and whether the loop continues: an empty
candidate list increments `emptyPageCount` and breaks once it reaches 3 or
the page budget is exhausted, any non-empty page resets the counter to 0. -/
def afterExtract (dedupe : Bool) (stamp : String) (totalPages page : Nat)
    (extracted : List Product) (s : LoopState) : LoopState × Bool :=
  let s1 := extractStep dedupe stamp page extracted s
  if extracted.isEmpty then
    let cnt := s1.emptyPageCount + 1
    if cnt ≥ 3 ∨ page ≥ totalPages then
      ({ s1 with emptyPageCount := cnt }, false)
    else
      ({ s1 with emptyPageCount := cnt }, true)
  else
    ({ s1 with emptyPageCount := 0 }, true)

/-- One iteration of the page loop (lines 605-712) for page number `page`.
Navigation and the bot-detection check only happen for `page > 1`; a
persistent detection emits a `paused` status then a `stopped` status and
breaks the loop; a cleared detection emits a `paused` status and proceeds to
extraction; a twice-failed navigation skips the page.  Every detection wait
is the fixed 120-second sleep. -/
def pageIter (dedupe : Bool) (stamp : String) (totalPages page : Nat)
    (o : PageOutcome) (s : LoopState) : LoopState × Bool :=
  let s0 := { s with currentPage := page }
  if 1 < page then
    match o.nav with
    | NavResult.navFailTwice => (s0, true)
    | NavResult.blockedPersist =>
        ({ s0 with
             events := s0.events ++ [Ev.status "paused", Ev.status "stopped"],
             detectionWaits := s0.detectionWaits ++ [120] }, false)
    | NavResult.blockedRetryClear =>
        afterExtract dedupe stamp totalPages page o.extracted
          { s0 with events := s0.events ++ [Ev.status "paused"],
                    detectionWaits := s0.detectionWaits ++ [120] }
    | NavResult.clear => afterExtract dedupe stamp totalPages page o.extracted s0
    | NavResult.navFailRetryOk =>
        afterExtract dedupe stamp totalPages page o.extracted s0
  else
    afterExtract dedupe stamp totalPages page o.extracted s0

/-- The page loop `for (let page = 1; page <= totalPages && isRunning; ...)`:
`running p` is the value of the cooperative cancellation flag sampled at the
top of iteration `p`.  The outcome list supplies one entry per attempted
page. -/
def pageLoop (dedupe : Bool) (stamp : String) (running : Nat → Bool)
    (totalPages : Nat) : Nat → List PageOutcome → LoopState → LoopState
  | _, [], s => s
  | page, o :: rest, s =>
    if page ≤ totalPages ∧ running page = true then
      let r := pageIter dedupe stamp totalPages page o s
      if r.2 then pageLoop dedupe stamp running totalPages (page + 1) rest r.1
      else r.1
    else s

/-- `waitIfPaused` (lines 819-823): sleep one second at a time while
`isPaused && isRunning`, with both flags sampled before every sleep.  `fuel`
bounds the unrolling; the result is the tick at which the loop exits. -/
def waitIfPausedLoop (isPaused isRunning : Nat → Bool) : Nat → Nat → Nat
  | 0, t => t
  | fuel + 1, t =>
    if isPaused t && isRunning t then waitIfPausedLoop isPaused isRunning fuel (t + 1)
    else t

/-- The countdown of `handleRateLimit` (lines 838-844):
`for (let i = waitTime; i > 0 && isRunning && !isPaused; i--)` sleeping one
second per round; returns the tick at which it exits, i.e. the seconds
actually waited when started at tick 0. -/
def rateLimitCountdown (isRunning isPaused : Nat → Bool) : Nat → Nat → Nat
  | 0, t => t
  | i + 1, t =>
    if isRunning t && !(isPaused t) then rateLimitCountdown isRunning isPaused i (t + 1)
    else t

/-- The fixed column list of `saveResults` (lines 774-778). -/
def requiredCols : List String :=
  ["Title", "Price", "Ebay_Item_Number", "EAN", "Description",
   "Image_URL_1", "Image_URL_2", "Image_URL_3", "Image_URL_4",
   "Condition", "Shipping", "URL", "Scraped_At"]

/-- JS property lookup `p[col]` on a product: `none` models `undefined`
(`Scraped_At` before stamping, and any column that is not a string field of
the record). -/
def getField (p : Product) : String → Option String
  | "Title" => some p.Title
  | "Price" => some p.Price
  | "Ebay_Item_Number" => some p.Ebay_Item_Number
  | "EAN" => some p.EAN
  | "Description" => some p.Description
  | "Image_URL_1" => some p.Image_URL_1
  | "Image_URL_2" => some p.Image_URL_2
  | "Image_URL_3" => some p.Image_URL_3
  | "Image_URL_4" => some p.Image_URL_4
  | "Condition" => some p.Condition
  | "Shipping" => some p.Shipping
  | "URL" => some p.URL
  | "Scraped_At" => p.Scraped_At
  | _ => none

/-- The JS `value || dflt` on string-or-undefined values: `undefined` and the
empty string are falsy, every other string is kept. -/
def jsOr (v : Option String) (dflt : String) : String :=
  match v with
  | none => dflt
  | some s => if s = "" then dflt else s

/-- One formatted export row (lines 780-786):
`requiredCols.forEach(col => formatted[col] = p[col] || '')`. -/
def formatProduct (p : Product) : List (String × String) :=
  requiredCols.map (fun col => (col, jsOr (getField p col) ""))

/-- All rows written to the export sheet. -/
def saveRows (ps : List Product) : List (List (String × String)) :=
  ps.map formatProduct

/-- Dedupe invariant of the page loop: the collected identifiers are pairwise
distinct and every collected identifier is in `seenItems`. -/
def SeenInv (s : LoopState) : Prop :=
  (itemNumbers s.products).Nodup
  ∧ ∀ q ∈ s.products, q.Ebay_Item_Number ∈ s.seen

/-- A single page whose candidate list repeats one item number. -/
def dupPage : List PageOutcome :=
  [⟨NavResult.clear, [mkProduct "77" "x", mkProduct "77" "y"]⟩]

/-- Two pages with no within-page duplicate; page 2 repeats an identifier of
page 1. -/
def dupFreePages : List PageOutcome :=
  [⟨NavResult.clear, [mkProduct "1" "a"]⟩,
   ⟨NavResult.clear, [mkProduct "1" "b", mkProduct "2" "c"]⟩]

/-- Ten-page trace: five non-empty pages, then three consecutive empty pages,
then two further non-empty pages that the loop must never reach. -/
def scenarioPages : List PageOutcome :=
  [⟨NavResult.clear, [mkProduct "1" "a"]⟩,
   ⟨NavResult.clear, [mkProduct "2" "b"]⟩,
   ⟨NavResult.clear, [mkProduct "3" "c"]⟩,
   ⟨NavResult.clear, [mkProduct "4" "d"]⟩,
   ⟨NavResult.clear, [mkProduct "5" "e"]⟩,
   ⟨NavResult.clear, []⟩,
   ⟨NavResult.clear, []⟩,
   ⟨NavResult.clear, []⟩,
   ⟨NavResult.clear, [mkProduct "9" "i"]⟩,
   ⟨NavResult.clear, [mkProduct "10" "j"]⟩]

/-- The empty-page scenario run with a 20-page budget. -/
def scenarioRun : LoopState :=
  pageLoop true "t" (fun _ => true) 20 1 scenarioPages initLoopState

/-- The same run truncated to the five non-empty pages. -/
def scenarioFirst5 : LoopState :=
  pageLoop true "t" (fun _ => true) 20 1 (scenarioPages.take 5) initLoopState

/-- Run that hits a persistent detection on page 3 after two clean pages. -/
def detectRun (stamp : String) (p1 p2 junk : List Product) (total : Nat) : LoopState :=
  pageLoop true stamp (fun _ => true) total 1
    [⟨NavResult.clear, p1⟩, ⟨NavResult.clear, p2⟩,
     ⟨NavResult.blockedPersist, junk⟩] initLoopState

/-- The same run with no detection page. -/
def cleanRun (stamp : String) (p1 p2 : List Product) (total : Nat) : LoopState :=
  pageLoop true stamp (fun _ => true) total 1
    [⟨NavResult.clear, p1⟩, ⟨NavResult.clear, p2⟩] initLoopState

end EbayScraper

namespace EbayScraper

/-- C1: on a run that ends in a fatal error the finalization emits exactly one
`error` event, but when partial products were collected and the best-effort
save succeeds it also emits `files_saved` and a `complete` event for the same
run; with no partial products the fatal path emits exactly `[error]`, and a
fully successful run emits `files_saved` then `complete` and no `error`. -/
theorem C1_terminal_events (firstSaveOk catchSaveOk : Bool) (n : Nat) :
    finalizationEvents true true catchSaveOk n = [Ev.filesSaved, Ev.complete]
    ∧ (finalizationEvents false firstSaveOk catchSaveOk n).count Ev.error = 1
    ∧ (finalizationEvents true false catchSaveOk n).count Ev.error = 1
    ∧ finalizationEvents false firstSaveOk catchSaveOk (n + 1) =
        (if catchSaveOk then [Ev.filesSaved, Ev.complete, Ev.error] else [Ev.error])
    ∧ finalizationEvents false firstSaveOk catchSaveOk 0 = [Ev.error] := by
  refine ⟨rfl, ?_, ?_, ?_, rfl⟩
  · by_cases h : 0 < n <;> cases catchSaveOk <;> simp [finalizationEvents, h]
  · by_cases h : 0 < n <;> cases catchSaveOk <;> simp [finalizationEvents, h]
  · cases catchSaveOk <;> simp [finalizationEvents]

/-- C1 counterexample to the claim as stated: a run that ends with a fatal
error after collecting one product, whose best-effort save succeeds, emits a
`complete` event and an `error` event in the same run. -/
theorem C1_counterexample :
    finalizationEvents false true true 1 = [Ev.filesSaved, Ev.complete, Ev.error]
    ∧ Ev.complete ∈ finalizationEvents false true true 1
    ∧ Ev.error ∈ finalizationEvents false true true 1 := by
  refine ⟨rfl, ?_, ?_⟩ <;> decide

/-- C3: for a parsed positive result count, positive page size and a positive
requested page cap, the computed page budget is `min (ceil (T / S)) C`; a
parsed count is used as is; when no count is parseable and no products are
seen the budget falls back to the requested cap, or to the finite default 100
when no cap was requested; and the scenario `pageSize = 60`,
`totalResults = 185`, no explicit page cap gives 4 pages. -/
theorem C3_total_pages (T S C : Nat) (hT : 0 < T) (hS : 0 < S) (hC : 0 < C) :
    computeTotalPages T S C = min (ceilDiv T S) C
    ∧ effectiveTotalResults T 0 = T
    ∧ computeTotalPages 0 S C = C
    ∧ computeTotalPages 0 S 0 = 100
    ∧ computeTotalPages 185 60 0 = 4 := by
  have hT0 : T ≠ 0 := Nat.pos_iff_ne_zero.mp hT
  have hC0 : C ≠ 0 := Nat.pos_iff_ne_zero.mp hC
  refine ⟨?_, ?_, ?_, ?_, ?_⟩
  · simp [computeTotalPages, hT0, hC0]
  · simp [effectiveTotalResults, hT0]
  · simp [computeTotalPages, hC0]
  · simp [computeTotalPages]
  · decide

/-- C3 witness: the theorem applied at `T = 185`, `S = 60`, `C = 4`. -/
theorem C3_total_pages_witness :
    0 < 185 ∧ 0 < 60 ∧ 0 < 4
    ∧ (computeTotalPages 185 60 4 = min (ceilDiv 185 60) 4
       ∧ effectiveTotalResults 185 0 = 185
       ∧ computeTotalPages 0 60 4 = 4
       ∧ computeTotalPages 0 60 0 = 100
       ∧ computeTotalPages 185 60 0 = 4) :=
  ⟨by decide, by decide, by decide,
   C3_total_pages 185 60 4 (by decide) (by decide) (by decide)⟩

/-- Retry count and running flag after consecutive detections: the handler
increments the count by one per call and never touches `isRunning`. -/
theorem consecutiveDetections_spec (n : Nat) : ∀ s : RateState,
    (consecutiveDetections n s).retryCount = s.retryCount + n
    ∧ (consecutiveDetections n s).isRunning = s.isRunning := by
  induction n with
  | zero => intro s; simp [consecutiveDetections]
  | succ k ih =>
    intro s
    have h := ih (handleRateLimit s).1
    simp only [consecutiveDetections, h, handleRateLimit] at *
    constructor
    · omega
    · exact h.2

/-- C6: each consecutive detection computes `wait = 60 + 30 * retryCount`
seconds; the waits are strictly increasing (hence each wait is at least the
previous one) because `retryCount` only ever increments and nothing in the
source resets it; there is no cap, and the task keeps running no matter how
many consecutive detections occur - the `maxRetries` field is never
consulted. -/
theorem C6_backoff_policy (n : Nat) :
    nthDetectionWait n = 60 + 30 * n
    ∧ nthDetectionWait n < nthDetectionWait (n + 1)
    ∧ (consecutiveDetections n initRateState).retryCount = n
    ∧ (consecutiveDetections n initRateState).isRunning = true := by
  have h := consecutiveDetections_spec n initRateState
  have h1 := consecutiveDetections_spec (n + 1) initRateState
  have hrc : (consecutiveDetections n initRateState).retryCount = n := by
    simpa [initRateState] using h.1
  have hrc1 : (consecutiveDetections (n + 1) initRateState).retryCount = n + 1 := by
    simpa [initRateState] using h1.1
  refine ⟨?_, ?_, hrc, by simpa [initRateState] using h.2⟩
  · simp only [nthDetectionWait, handleRateLimit, hrc]
    omega
  · simp only [nthDetectionWait, handleRateLimit, hrc, hrc1]
    omega

/-- C6 counterexample to the claim as stated: after 10 consecutive detections
with no intervening clear result, `retryCount = 10` exceeds `maxRetries = 3`
yet the task is still running (nothing stops it), and the computed wait has
grown to 360 seconds, past the `60 + 30 * 3 = 150` that a cap at the maximum
retry count would allow. -/
theorem C6_counterexample :
    (consecutiveDetections 10 initRateState).retryCount = 10
    ∧ maxRetries = 3
    ∧ (consecutiveDetections 10 initRateState).isRunning = true
    ∧ nthDetectionWait 10 = 360
    ∧ 60 + 30 * maxRetries < 360 := by
  refine ⟨by decide, rfl, by decide, by decide, by decide⟩

/-- C7 amended behaviour: with the browser launch succeeding, the startup
phase is decided by the first three navigation attempts - it succeeds as soon
as one of attempts 0, 1, 2 succeeds (reporting how many attempts were used)
and fails with a navigation error only after all three fail; a failed browser
launch, by contrast, fails the task immediately. -/
theorem C7_startup_retries (launchOk navOk : Nat → Bool)
    (h0 : launchOk 0 = true) :
    startupPhase launchOk navOk =
      (if navOk 0 = true then Except.ok 1
       else if navOk 1 = true then Except.ok 2
       else if navOk 2 = true then Except.ok 3
       else Except.error StartupError.navigationFailed)
    ∧ startupPhase (fun _ => false) navOk = Except.error StartupError.launchFailed := by
  constructor
  · by_cases h1 : navOk 0 = true <;> by_cases h2 : navOk 1 = true <;>
      by_cases h3 : navOk 2 = true <;>
      simp [startupPhase, browserLaunchAttempt, firstPageLoad, h0, h1, h2, h3]
  · simp [startupPhase, browserLaunchAttempt]

/-- C7 witness: launch succeeds, navigation succeeds on the third attempt,
and the startup phase reports three attempts used. -/
theorem C7_startup_retries_witness :
    ((fun _ : Nat => true) 0 = true)
    ∧ startupPhase (fun _ => true) (fun n => decide (n = 2)) = Except.ok 3 := by
  refine ⟨rfl, ?_⟩
  have h := C7_startup_retries (fun _ => true) (fun n => decide (n = 2)) rfl
  rw [h.1]
  norm_num

/-- C7 counterexample to the claim as stated: a browser-launch oracle that
fails on the first attempt but would succeed on every later attempt still
fails the whole task with a launch error - the launch is never retried, even
though navigation oracles that always succeed are available. -/
theorem C7_counterexample :
    startupPhase (fun n => decide (0 < n)) (fun _ => true) =
      Except.error StartupError.launchFailed
    ∧ (fun n => decide (0 < n)) 1 = true := by
  exact ⟨rfl, by decide⟩

/-- C2: concrete interleaving on which the concurrency cap is broken.  Submit
task 1 (admitted), `stop_all` (counter reset to 0 while task 1's
`finally` decrement is still owed), submit task 2 (admitted, counter 1), task
1's promise settles (counter drops back to 0 although task 2 is still
scraping), submit task 3 (admitted): tasks 2 and 3 now hold live browser
sessions simultaneously, above `MAX_CONCURRENT_BROWSERS = 1`. -/
theorem C2_cap_violation :
    (runSched [SchedAction.submit 1, SchedAction.stopAll, SchedAction.submit 2,
               SchedAction.taskFinished 1, SchedAction.submit 3]).runningTasks = [2, 3]
    ∧ MAX_CONCURRENT_BROWSERS = 1
    ∧ ¬ ((runSched [SchedAction.submit 1, SchedAction.stopAll, SchedAction.submit 2,
                    SchedAction.taskFinished 1,
                    SchedAction.submit 3]).runningTasks.length ≤ 1) := by
  refine ⟨by decide, rfl, by decide⟩

/-- The JS `v || dflt` keeps any present string: a present empty string is
replaced by the default, which for the empty default is the same string. -/
theorem jsOr_some_empty (v : String) : jsOr (some v) "" = v := by
  unfold jsOr
  by_cases h : v = "" <;> simp [h]

/-- `p[col] || ''` equals `getD ''` on the option model. -/
theorem jsOr_getD (v : Option String) : jsOr v "" = v.getD "" := by
  cases v with
  | none => rfl
  | some s => simpa using jsOr_some_empty s

/-- C10: every export row has exactly the 13 fixed columns in the fixed
order, each string field is carried over as is (an absent or empty field
yields the empty string), the not-yet-stamped `Scraped_At` defaults to the
empty string, and the extra `Page` field of the scraped record is dropped. -/
theorem C10_export_row (p : Product) :
    (formatProduct p).map Prod.fst = requiredCols
    ∧ (formatProduct p).length = 13
    ∧ formatProduct p =
        [("Title", p.Title), ("Price", p.Price),
         ("Ebay_Item_Number", p.Ebay_Item_Number), ("EAN", p.EAN),
         ("Description", p.Description), ("Image_URL_1", p.Image_URL_1),
         ("Image_URL_2", p.Image_URL_2), ("Image_URL_3", p.Image_URL_3),
         ("Image_URL_4", p.Image_URL_4), ("Condition", p.Condition),
         ("Shipping", p.Shipping), ("URL", p.URL),
         ("Scraped_At", p.Scraped_At.getD "")]
    ∧ "Page" ∉ (formatProduct p).map Prod.fst := by
  have h1 : (formatProduct p).map Prod.fst = requiredCols := rfl
  refine ⟨h1, ?_, ?_, ?_⟩
  · simp [formatProduct, requiredCols]
  · simp [formatProduct, requiredCols, getField, jsOr_some_empty, jsOr_getD]
  · rw [h1]
    decide

/-- A page iteration with a clear navigation is extraction plus empty-page
tracking on the cursor-updated state, for any page number. -/
theorem pageIter_clear (dedupe : Bool) (stamp : String) (total page : Nat)
    (ext : List Product) (s : LoopState) :
    pageIter dedupe stamp total page ⟨NavResult.clear, ext⟩ s
      = afterExtract dedupe stamp total page ext { s with currentPage := page } := by
  by_cases hp : 1 < page <;> simp [pageIter, hp]

/-- C9: a non-empty page resets the consecutive-empty counter to zero and
never breaks the loop by itself; an empty page increments the counter by one
and the loop continues exactly when the new count is still below 3 and pages
remain in the budget; and on the concrete trace of five non-empty pages
followed by empty pages 6-8, the run stops at page 8 with exactly the records
of pages 1-5 and pages 9 and 10 never attempted. -/
theorem C9_empty_page_tolerance (dedupe : Bool) (stamp : String)
    (total page : Nat) (q : Product) (ext : List Product) (s : LoopState) :
    (pageIter dedupe stamp total page ⟨NavResult.clear, q :: ext⟩ s).1.emptyPageCount = 0
    ∧ (pageIter dedupe stamp total page ⟨NavResult.clear, q :: ext⟩ s).2 = true
    ∧ (pageIter dedupe stamp total page ⟨NavResult.clear, []⟩ s).1.emptyPageCount
        = s.emptyPageCount + 1
    ∧ ((pageIter dedupe stamp total page ⟨NavResult.clear, []⟩ s).2 = true
        ↔ s.emptyPageCount + 1 < 3 ∧ page < total)
    ∧ scenarioRun.products = scenarioFirst5.products
    ∧ scenarioRun.currentPage = 8
    ∧ scenarioRun.emptyPageCount = 3
    ∧ itemNumbers scenarioRun.products = ["1", "2", "3", "4", "5"] := by
  rw [pageIter_clear, pageIter_clear]
  refine ⟨?_, ?_, ?_, ?_, by decide, by decide, by decide, by decide⟩
  · simp [afterExtract]
  · simp [afterExtract]
  · unfold afterExtract
    simp only [List.isEmpty_nil, if_true]
    split <;> simp [extractStep]
  · unfold afterExtract
    simp only [List.isEmpty_nil, if_true]
    split
    · rename_i hc
      simp only [extractStep] at hc ⊢
      constructor
      · intro h
        exact absurd h (by simp)
      · intro h
        omega
    · rename_i hc
      simp only [extractStep] at hc ⊢
      constructor
      · intro _
        omega
      · intro _
        trivial

/-- Membership after a `Set.add` on the list model. -/
theorem mem_addSeen (t : List String) (k a : String) :
    a ∈ addSeen t k ↔ a ∈ t ∨ a = k := by
  unfold addSeen
  by_cases h : k ∈ t
  · simp only [if_pos h]
    constructor
    · exact fun ha => Or.inl ha
    · rintro (ha | rfl)
      · exact ha
      · exact h
  · simp [if_neg h, List.mem_append]

/-- Membership after adding every identifier of a page to the seen set. -/
theorem mem_recordSeen (l : List Product) : ∀ (t : List String) (a : String),
    a ∈ recordSeen t l ↔ a ∈ t ∨ a ∈ itemNumbers l := by
  induction l with
  | nil =>
    intro t a
    simp [recordSeen, itemNumbers]
  | cons q rest ih =>
    intro t a
    have hstep : recordSeen t (q :: rest)
        = recordSeen (addSeen t q.Ebay_Item_Number) rest := rfl
    rw [hstep, ih]
    simp only [mem_addSeen, itemNumbers, List.map_cons, List.mem_cons]
    constructor
    · rintro ((ha | ha) | ha)
      · exact Or.inl ha
      · exact Or.inr (Or.inl ha)
      · exact Or.inr (Or.inr ha)
    · rintro (ha | ha | ha)
      · exact Or.inl (Or.inl ha)
      · exact Or.inl (Or.inr ha)
      · exact Or.inr ha

/-- Stamping a capture timestamp does not change item identifiers. -/
theorem itemNumbers_stamped (stamp : String) (l : List Product) :
    itemNumbers (l.map (fun q => { q with Scraped_At := some stamp }))
      = itemNumbers l := by
  simp only [itemNumbers, List.map_map]
  rfl

/-- Identifiers distribute over append. -/
theorem itemNumbers_append (l1 l2 : List Product) :
    itemNumbers (l1 ++ l2) = itemNumbers l1 ++ itemNumbers l2 := by
  simp [itemNumbers]

/-- One extraction step with dedupe on preserves the dedupe invariant,
provided the page's own candidate list repeats no identifier. -/
theorem extractStep_seenInv (stamp : String) (page : Nat)
    (extracted : List Product) (s : LoopState)
    (hs : SeenInv s) (hpage : (itemNumbers extracted).Nodup) :
    SeenInv (extractStep true stamp page extracted s) := by
  obtain ⟨hnd, hmem⟩ := hs
  have hsub : List.Sublist
      (itemNumbers
        (extracted.filter (fun q => decide (q.Ebay_Item_Number ∉ s.seen))))
      (itemNumbers extracted) :=
    List.Sublist.map Product.Ebay_Item_Number (List.filter_sublist extracted)
  constructor
  · show (itemNumbers (s.products ++ _)).Nodup
    rw [itemNumbers_append, itemNumbers_stamped]
    refine List.Nodup.append hnd (hsub.nodup hpage) ?_
    intro a ha hb
    obtain ⟨q, hq, rfl⟩ := List.mem_map.mp ha
    obtain ⟨q2, hq2, hq2a⟩ := List.mem_map.mp hb
    obtain ⟨hq2mem, hq2f⟩ := List.mem_filter.mp hq2
    have : q2.Ebay_Item_Number ∉ s.seen := of_decide_eq_true hq2f
    exact this (hq2a ▸ hmem q hq)
  · intro q hq
    show q.Ebay_Item_Number ∈ recordSeen s.seen extracted
    rcases List.mem_append.mp hq with hold | hnew
    · exact (mem_recordSeen extracted s.seen _).mpr (Or.inl (hmem q hold))
    · obtain ⟨q2, hq2, rfl⟩ := List.mem_map.mp hnew
      have hq2e : q2 ∈ extracted := (List.mem_filter.mp hq2).1
      refine (mem_recordSeen extracted s.seen _).mpr (Or.inr ?_)
      exact List.mem_map.mpr ⟨q2, hq2e, rfl⟩

/-- The empty-page bookkeeping does not touch products or seen set, so the
invariant survives `afterExtract`. -/
theorem afterExtract_seenInv (stamp : String) (total page : Nat)
    (extracted : List Product) (s : LoopState)
    (hs : SeenInv s) (hpage : (itemNumbers extracted).Nodup) :
    SeenInv (afterExtract true stamp total page extracted s).1 := by
  have h1 := extractStep_seenInv stamp page extracted s hs hpage
  unfold afterExtract
  by_cases he : extracted.isEmpty
  · simp only [he, if_true]
    split <;> exact h1
  · simp only [he, if_false]
    exact h1

/-- One full page iteration preserves the dedupe invariant. -/
theorem pageIter_seenInv (stamp : String) (total page : Nat)
    (o : PageOutcome) (s : LoopState)
    (hs : SeenInv s) (ho : (itemNumbers o.extracted).Nodup) :
    SeenInv (pageIter true stamp total page o s).1 := by
  obtain ⟨nav, ext⟩ := o
  have hs0 : SeenInv { s with currentPage := page } := hs
  by_cases hp : 1 < page
  · cases nav with
    | clear =>
      simpa [pageIter, hp] using afterExtract_seenInv stamp total page ext _ hs0 ho
    | navFailRetryOk =>
      simpa [pageIter, hp] using afterExtract_seenInv stamp total page ext _ hs0 ho
    | navFailTwice =>
      simpa [pageIter, hp] using hs0
    | blockedRetryClear =>
      have hs1 : SeenInv { s with currentPage := page,
                                  events := s.events ++ [Ev.status "paused"],
                                  detectionWaits := s.detectionWaits ++ [120] } := hs
      simpa [pageIter, hp] using afterExtract_seenInv stamp total page ext _ hs1 ho
    | blockedPersist =>
      simpa [pageIter, hp] using hs0
  · cases nav <;>
      simpa [pageIter, hp] using afterExtract_seenInv stamp total page ext _ hs0 ho

/-- The whole page loop preserves the dedupe invariant when every visited
page is internally duplicate-free. -/
theorem pageLoop_seenInv (stamp : String) (running : Nat → Bool)
    (total : Nat) (outcomes : List PageOutcome) :
    ∀ (page : Nat) (s : LoopState), SeenInv s →
      (∀ o ∈ outcomes, (itemNumbers o.extracted).Nodup) →
      SeenInv (pageLoop true stamp running total page outcomes s) := by
  induction outcomes with
  | nil =>
    intro page s hs _
    simpa [pageLoop] using hs
  | cons o rest ih =>
    intro page s hs h
    unfold pageLoop
    by_cases hg : page ≤ total ∧ running page = true
    · simp only [if_pos hg]
      have h1 := pageIter_seenInv stamp total page o s hs (h o (by simp))
      by_cases hr : (pageIter true stamp total page o s).2 = true
      · simp only [hr, if_true]
        exact ih (page + 1) _ h1 (fun o2 ho2 => h o2 (by simp [ho2]))
      · simp only [Bool.not_eq_true] at hr
        simp only [hr, Bool.false_eq_true, if_false]
        exact h1
    · simp only [if_neg hg]
      exact hs

/-- C4 amended: with dedupe enabled, as long as no single page's candidate
list itself repeats an identifier, the final collected record list repeats no
identifier - later occurrences of an identifier already seen on an earlier
page are filtered out. -/
theorem C4_dedupe_unique (stamp : String) (running : Nat → Bool)
    (total page : Nat) (outcomes : List PageOutcome)
    (h : ∀ o ∈ outcomes, (itemNumbers o.extracted).Nodup) :
    (itemNumbers
      (pageLoop true stamp running total page outcomes initLoopState).products).Nodup :=
  (pageLoop_seenInv stamp running total outcomes page initLoopState
    ⟨by simp [initLoopState, itemNumbers], by simp [initLoopState]⟩ h).1

/-- C4 witness: two duplicate-free pages where page 2 repeats an identifier
of page 1; the final list keeps the identifiers distinct. -/
theorem C4_dedupe_unique_witness :
    (∀ o ∈ dupFreePages, (itemNumbers o.extracted).Nodup)
    ∧ (itemNumbers
        (pageLoop true "t" (fun _ => true) 5 1 dupFreePages initLoopState).products).Nodup :=
  ⟨by decide, C4_dedupe_unique "t" (fun _ => true) 5 1 dupFreePages (by decide)⟩

/-- C4 counterexample to the claim as stated: a single page whose candidate
list contains the same item number twice ends the task with two records
sharing that identifier - the duplicate filter only consults the seen set as
it was before the page, so within-page duplicates all pass. -/
theorem C4_counterexample :
    ¬ (itemNumbers
        (pageLoop true "t" (fun _ => true) 5 1 dupPage initLoopState).products).Nodup
    ∧ itemNumbers
        (pageLoop true "t" (fun _ => true) 5 1 dupPage initLoopState).products
        = ["77", "77"] := by
  exact ⟨by decide, by decide⟩

/-- C5 amended: when a detection signal on page 3 persists through the single
retry, the run keeps exactly the records and seen set of the two earlier
pages (they remain for persistence), emits a `paused` status followed by a
`stopped` status instead of a `rate_limited` event, takes exactly one fixed
120-second wait (not a computed backoff), and the loop stops with the cursor
on the blocked page. -/
theorem C5_detection_stop (stamp : String) (a b : Product)
    (l1 l2 junk : List Product) (total : Nat) (h3 : 3 ≤ total) :
    (detectRun stamp (a :: l1) (b :: l2) junk total).products
        = (cleanRun stamp (a :: l1) (b :: l2) total).products
    ∧ (detectRun stamp (a :: l1) (b :: l2) junk total).seen
        = (cleanRun stamp (a :: l1) (b :: l2) total).seen
    ∧ (detectRun stamp (a :: l1) (b :: l2) junk total).events
        = (cleanRun stamp (a :: l1) (b :: l2) total).events
            ++ [Ev.status "paused", Ev.status "stopped"]
    ∧ (detectRun stamp (a :: l1) (b :: l2) junk total).detectionWaits = [120]
    ∧ (detectRun stamp (a :: l1) (b :: l2) junk total).currentPage = 3 := by
  have h1 : 1 ≤ total := by omega
  have h2 : 2 ≤ total := by omega
  refine ⟨?_, ?_, ?_, ?_, ?_⟩ <;>
    simp [detectRun, cleanRun, pageLoop, pageIter, afterExtract, extractStep,
          initLoopState, h1, h2, h3]

/-- C5 witness: the amended detection behaviour at two concrete one-record
pages and a five-page budget. -/
theorem C5_detection_stop_witness :
    3 ≤ 5
    ∧ ((detectRun "w" [mkProduct "1" "a"] [mkProduct "2" "b"] [] 5).products
        = (cleanRun "w" [mkProduct "1" "a"] [mkProduct "2" "b"] 5).products
       ∧ (detectRun "w" [mkProduct "1" "a"] [mkProduct "2" "b"] [] 5).seen
        = (cleanRun "w" [mkProduct "1" "a"] [mkProduct "2" "b"] 5).seen
       ∧ (detectRun "w" [mkProduct "1" "a"] [mkProduct "2" "b"] [] 5).events
        = (cleanRun "w" [mkProduct "1" "a"] [mkProduct "2" "b"] 5).events
            ++ [Ev.status "paused", Ev.status "stopped"]
       ∧ (detectRun "w" [mkProduct "1" "a"] [mkProduct "2" "b"] [] 5).detectionWaits = [120]
       ∧ (detectRun "w" [mkProduct "1" "a"] [mkProduct "2" "b"] [] 5).currentPage = 3) :=
  ⟨by decide,
   C5_detection_stop "w" (mkProduct "1" "a") (mkProduct "2" "b") [] [] [] 5
     (by decide)⟩

/-- C5 counterexample to the claim as stated: on a run whose page 3 is
persistently blocked, the full event trace contains no `rate_limited` event
at all (the detection path emits `status` updates), and the wait taken is the
fixed 120 seconds, not the 60-second base backoff of `handleRateLimit`. -/
theorem C5_counterexample :
    (detectRun "t" [mkProduct "1" "a"] [mkProduct "2" "b"] [] 5).events
      = [Ev.progress 1, Ev.progress 2, Ev.status "paused", Ev.status "stopped"]
    ∧ (detectRun "t" [mkProduct "1" "a"] [mkProduct "2" "b"] [] 5).detectionWaits
      = [120]
    ∧ itemNumbers (detectRun "t" [mkProduct "1" "a"] [mkProduct "2" "b"] [] 5).products
      = ["1", "2"]
    ∧ nthDetectionWait 0 = 60 := by
  refine ⟨by decide, by decide, by decide, by decide⟩

/-- The pause-wait exits within `k` ticks when the cancellation makes
`isRunning` false from tick `k` on. -/
theorem waitIfPausedLoop_le (isPaused isRunning : Nat → Bool) (k : Nat)
    (hperm : ∀ u, k ≤ u → isRunning u = false) :
    ∀ (fuel t : Nat), waitIfPausedLoop isPaused isRunning fuel t ≤ max t k := by
  intro fuel
  induction fuel with
  | zero =>
    intro t
    simp [waitIfPausedLoop]
  | succ f ih =>
    intro t
    unfold waitIfPausedLoop
    by_cases hc : (isPaused t && isRunning t) = true
    · have hrun : isRunning t = true := (Bool.and_eq_true _ _).mp hc |>.2
      have ht : t < k := by
        by_contra hle
        have := hperm t (by omega)
        rw [this] at hrun
        exact Bool.false_ne_true hrun
      have := ih (t + 1)
      simp only [hc, if_true]
      omega
    · simp only [hc, if_false]
      exact Nat.le_max_left t k

/-- C8 amended: the cancellation flag is sampled at the top of each page
iteration (a stop before page `p` ends the loop immediately with the records
already collected), inside the pause wait (the sleep loop exits within the
tick at which the flag permanently drops), and inside the `handleRateLimit`
countdown (a task already stopped waits zero seconds there); the in-loop
bot-detection wait, by contrast, is a fixed 120-second sleep for every value
of the flag. -/
theorem C8_cancellation_sampling (dedupe : Bool) (stamp : String)
    (running : Nat → Bool) (total page : Nat) (o : PageOutcome)
    (rest : List PageOutcome) (s : LoopState)
    (isPaused isRunning rlRunning rlPaused bdFlag : Nat → Bool)
    (fuel k w : Nat)
    (hstop : running page = false)
    (hperm : ∀ u, k ≤ u → isRunning u = false)
    (hrl : rlRunning 0 = false) :
    pageLoop dedupe stamp running total page (o :: rest) s = s
    ∧ waitIfPausedLoop isPaused isRunning fuel 0 ≤ k
    ∧ rateLimitCountdown rlRunning rlPaused w 0 = 0
    ∧ botDetectionWaitSeconds bdFlag = 120 := by
  refine ⟨?_, ?_, ?_, rfl⟩
  · unfold pageLoop
    simp [hstop]
  · simpa using waitIfPausedLoop_le isPaused isRunning k hperm fuel 0
  · cases w <;> simp [rateLimitCountdown, hrl]

/-- C8 witness: a task stopped before page 1, a pause wait whose running flag
drops at tick 2, a countdown entered after the stop, and the detection sleep,
all at concrete inputs. -/
theorem C8_cancellation_sampling_witness :
    ((fun _ : Nat => false) 1 = false)
    ∧ (∀ u : Nat, 2 ≤ u → (fun t => decide (t < 2)) u = false)
    ∧ ((fun _ : Nat => false) 0 = false)
    ∧ (pageLoop true "t" (fun _ => false) 5 1
        [⟨NavResult.clear, []⟩] initLoopState = initLoopState
       ∧ waitIfPausedLoop (fun _ => true) (fun t => decide (t < 2)) 10 0 ≤ 2
       ∧ rateLimitCountdown (fun _ => false) (fun _ => false) 120 0 = 0
       ∧ botDetectionWaitSeconds (fun _ => false) = 120) := by
  refine ⟨rfl, ?_, rfl, ?_⟩
  · intro u hu
    simp
    omega
  · exact C8_cancellation_sampling true "t" (fun _ => false) 5 1
      ⟨NavResult.clear, []⟩ [] initLoopState (fun _ => true)
      (fun t => decide (t < 2)) (fun _ => false) (fun _ => false)
      (fun _ => false) 10 2 120 rfl
      (by intro u hu; simp; omega) rfl

/-- C8 counterexample to the claim as stated: the backoff wait actually taken
on a detection signal elapses the full 120 seconds even when the cancellation
flag is already down before the wait begins, while the (never invoked)
`handleRateLimit` countdown under the same flag would wait zero seconds. -/
theorem C8_counterexample :
    botDetectionWaitSeconds (fun _ => false) = 120
    ∧ rateLimitCountdown (fun _ => false) (fun _ => false) 120 0 = 0
    ∧ (0 : Nat) < 120 := by
  refine ⟨rfl, by decide, by decide⟩

end EbayScraper
